import Mathlib

/-!
Verification of the `ungzip` Caddy middleware (`handler.go`).

The repository is a single HTTP response filter, `ResponseUngzip`, which
buffers the downstream handler's response and conditionally decompresses a
gzip-encoded body, gated on request path, content type and buffered size.
The source ships two revisions of `handler.go`; their configuration parsing,
`Validate`, `isGzipped` and all four gates are identical.  The decompression
block embedded here follows the revision whose `ServeHTTP` resets the
recorder's buffer and writes the decompressed bytes back
(`handler.go:347-369`); where the revisions diverge (the error path of the
decode step) the divergence is recorded in the theorems below.

External collaborators are modelled by their contracts:
  * the Caddy response recorder is a buffering sink capturing status,
    headers and body (the spec's "BufferedResponse");
  * Go's `compress/gzip` reader (`gzip.NewReader` + `io.ReadAll`) is a
    parameter `gzipDecode : Bytes → Except String Bytes`; `Except.ok P`
    models a body that is a well-formed gzip stream decoding to `P`
    (in particular the output of a standard gzip encoder on `P`), and
    `Except.error e` models either failure point (bad header in
    `gzip.NewReader`, or corrupt/truncated data in `io.ReadAll`).

Bytes are modelled as `List Nat`, Go strings as `String` (header matching in
the source is ASCII-level: `strings.ToLower`, `strings.Contains`,
`strings.HasPrefix`; the char-list model below coincides with Go's byte-level
functions on UTF-8 text).
-/

namespace CaddyUngzip

/-- A response body: a byte sequence. -/
abbrev Bytes := List Nat

/-- Go `http.Header`: a map from (canonical) header name to the ordered list
of values.  Modelled as a total function; a name absent from the map is sent
to `[]`. -/
abbrev Header := String → List String

/-- Go `http.Header.Get`: the first value for the key, or `""` when the key
is absent. -/
def hGet (h : Header) (k : String) : String :=
  match h k with
  | [] => ""
  | v :: _ => v

/-- Go `http.Header.Del`: remove the key.  (A removed key and a key mapped
to `[]` are observationally identical through `hGet`.) -/
def hDel (h : Header) (k : String) : Header :=
  fun q => if q = k then [] else h q

/-- Go `http.Header.Set`: replace all values of the key with the single
given value. -/
def hSet (h : Header) (k : String) (v : String) : Header :=
  fun q => if q = k then [v] else h q

/-- ASCII lower-casing of one character, as Go's `strings.ToLower` acts on
the ASCII range (the only range relevant to matching `"gzip"`). -/
def lowerChar (c : Char) : Char :=
  if 'A' ≤ c ∧ c ≤ 'Z' then Char.ofNat (c.toNat + 32) else c

/-- Go `strings.ToLower` (ASCII fragment). -/
def goToLower (s : String) : String :=
  String.mk (s.toList.map lowerChar)

/-- Does the char list `s` start with the char list `p`? -/
def startsWithL : List Char → List Char → Bool
  | _, [] => true
  | [], _ :: _ => false
  | a :: s, b :: p => a == b && startsWithL s p

/-- Go `strings.HasPrefix s p`. -/
def goStartsWith (s p : String) : Bool :=
  startsWithL s.toList p.toList

/-- Does `s` contain `sub` as a contiguous substring? -/
def containsSub : List Char → List Char → Bool
  | [], sub => sub.isEmpty
  | c :: rest, sub => startsWithL (c :: rest) sub || containsSub rest sub

/-- Go `strings.Contains s sub`. -/
def goContains (s sub : String) : Bool :=
  containsSub s.toList sub.toList

/-- The handler's configuration (`handler.go:219-229`): path allow-list,
content-type allow-list, and the maximum buffered size eligible for
decompression.  `MaxSize` is Go `int64`, modelled as `Int`. -/
structure ResponseUngzip where
  Paths : List String
  ContentTypes : List String
  MaxSize : Int

/-- The buffered response captured by the recorder: status code, header map
and body bytes. -/
structure Response where
  status : Nat
  headers : Header
  body : Bytes

/-- What `ServeHTTP` does with the real sink, observationally:
  * `passDirect next`: the downstream stage was invoked directly on the real
    sink (no recorder was substituted) and its result returned unchanged;
  * `flushed resp`: exactly one `WriteResponse` flushed `resp` (status,
    headers, body) to the real sink;
  * `errored e`: the error `e` was returned to the caller and nothing was
    flushed. -/
inductive Outcome where
  | passDirect (next : Except String Response)
  | flushed (resp : Response)
  | errored (e : String)

/-- `isGzipped` (`handler.go:372-374`): the `Content-Encoding` value
contains `"gzip"`, case-insensitively. -/
def isGzipped (h : Header) : Bool :=
  goContains (goToLower (hGet h "Content-Encoding")) "gzip"

/-- The path gate (`handler.go:302-313`): with a non-empty `Paths` list, a
request is excluded when its URL path starts with none of the configured
strings (`len(r.Paths) > 0` and no `strings.HasPrefix` match). -/
def pathExcluded (r : ResponseUngzip) (reqPath : String) : Bool :=
  (!r.Paths.isEmpty) && !(r.Paths.any fun p => goStartsWith reqPath p)

/-- The content-type gate (`handler.go:328-340`): with a non-empty
`ContentTypes` list, the buffered response is excluded when its
`Content-Type` value starts with none of the configured strings. -/
def ctExcluded (r : ResponseUngzip) (h : Header) : Bool :=
  (!r.ContentTypes.isEmpty)
    && !(r.ContentTypes.any fun ct => goStartsWith (hGet h "Content-Type") ct)

/-- The size gate (`handler.go:342-345`): `rec.Buffer().Len() > int(r.MaxSize)`. -/
def tooBig (r : ResponseUngzip) (body : Bytes) : Bool :=
  decide ((body.length : Int) > r.MaxSize)

/-- The header rewrite on decode success (`handler.go:359-363`, equally
`handler.go:170-171` in the pooled revision): delete `Content-Encoding`,
then set `Content-Length` to the decimal rendering of the decompressed byte
count (`strconv.Itoa`). -/
def rewriteHeaders (h : Header) (n : Nat) : Header :=
  hSet (hDel h "Content-Encoding") "Content-Length" (toString n)

/-- `ServeHTTP` (`handler.go:300-370`).  `next` is the downstream stage's
behaviour on this request: `Except.error e` when `next.ServeHTTP` fails,
`Except.ok resp` for the status/headers/body it writes to whichever sink it
is handed.  `gzipDecode` models `compress/gzip` (see the file header).  The
result describes what reaches the real sink and what the handler returns. -/
def ServeHTTP (r : ResponseUngzip) (gzipDecode : Bytes → Except String Bytes)
    (reqPath : String) (next : Except String Response) : Outcome :=
  if pathExcluded r reqPath then
    Outcome.passDirect next
  else
    match next with
    | Except.error e => Outcome.errored e
    | Except.ok resp =>
      if !isGzipped resp.headers then
        Outcome.flushed resp
      else if ctExcluded r resp.headers then
        Outcome.flushed resp
      else if tooBig r resp.body then
        Outcome.flushed resp
      else
        match gzipDecode resp.body with
        | Except.error e => Outcome.errored e
        | Except.ok d =>
          Outcome.flushed ⟨resp.status, rewriteHeaders resp.headers d.length, d⟩

/-- `Validate` (`handler.go:292-297`): reject a negative `MaxSize`. -/
def Validate (r : ResponseUngzip) : Except String Unit :=
  if r.MaxSize < 0 then Except.error "max_size cannot be negative" else Except.ok ()

/-- One base-10 digit, as consumed by `strconv.ParseInt`. -/
def digitVal (c : Char) : Option Nat :=
  if '0' ≤ c ∧ c ≤ '9' then some (c.toNat - '0'.toNat) else none

/-- Accumulate base-10 digits; `none` on any non-digit. -/
def digitsToNat (cs : List Char) : Option Nat :=
  cs.foldl
    (fun acc c =>
      match acc, digitVal c with
      | some n, some d => some (n * 10 + d)
      | _, _ => none)
    (some 0)

/-- Go `strconv.ParseInt(s, 10, 64)`: an optional sign, then at least one
decimal digit, and the value must fit in a signed 64-bit integer; `none`
models a non-nil error. -/
def parseInt64 (s : String) : Option Int :=
  let core : Bool × List Char :=
    match s.toList with
    | '-' :: rest => (true, rest)
    | '+' :: rest => (false, rest)
    | cs => (false, cs)
  if core.2.isEmpty then none
  else
    match digitsToNat core.2 with
    | none => none
    | some n =>
      let v : Int := if core.1 then -(n : Int) else (n : Int)
      if v < -(2 ^ 63) ∨ v > 2 ^ 63 - 1 then none else some v

/-- The `max_size` branch of `UnmarshalCaddyfile` (`handler.go:63-71`,
identically `handler.go:262-270`): parse the argument with
`strconv.ParseInt(_, 10, 64)`; a parse error aborts unmarshalling, otherwise
the parsed value is stored in `MaxSize` unchanged. -/
def unmarshalMaxSize (arg : String) : Except String Int :=
  match parseInt64 arg with
  | none => Except.error "invalid max_size"
  | some n => Except.ok n

/-- The default substitution at the end of `UnmarshalCaddyfile`
(`handler.go:79-82`, identically `handler.go:278-281`): a `MaxSize` that is
exactly zero becomes `10 * 1024 * 1024`; any other value is kept. -/
def applyDefaultMaxSize (m : Int) : Int :=
  if m = 0 then 10 * 1024 * 1024 else m

/-! ## Gate helper lemmas -/

theorem pathExcluded_eq_false {r : ResponseUngzip} {reqPath : String}
    (h : r.Paths = [] ∨ (r.Paths.any fun p => goStartsWith reqPath p) = true) :
    pathExcluded r reqPath = false := by
  cases h with
  | inl h => simp [pathExcluded, h]
  | inr h => simp [pathExcluded, h]

theorem ctExcluded_eq_false {r : ResponseUngzip} {h : Header}
    (hc : r.ContentTypes = []
      ∨ (r.ContentTypes.any fun ct => goStartsWith (hGet h "Content-Type") ct) = true) :
    ctExcluded r h = false := by
  cases hc with
  | inl hc => simp [ctExcluded, hc]
  | inr hc => simp [ctExcluded, hc]

theorem tooBig_eq_false {r : ResponseUngzip} {body : Bytes}
    (h : (body.length : Int) ≤ r.MaxSize) : tooBig r body = false := by
  simp [tooBig]
  exact h

/-- On the buffered branch with all gates open and a successful decode,
`ServeHTTP` flushes exactly the rewritten response. -/
theorem serveHTTP_decode_ok {r : ResponseUngzip}
    {gzipDecode : Bytes → Except String Bytes} {reqPath : String}
    {resp : Response} {P : Bytes}
    (hpath : r.Paths = [] ∨ (r.Paths.any fun p => goStartsWith reqPath p) = true)
    (hgz : isGzipped resp.headers = true)
    (hct : r.ContentTypes = []
      ∨ (r.ContentTypes.any fun ct => goStartsWith (hGet resp.headers "Content-Type") ct) = true)
    (hsize : (resp.body.length : Int) ≤ r.MaxSize)
    (hdec : gzipDecode resp.body = Except.ok P) :
    ServeHTTP r gzipDecode reqPath (Except.ok resp) =
      Outcome.flushed ⟨resp.status, rewriteHeaders resp.headers P.length, P⟩ := by
  simp [ServeHTTP, pathExcluded_eq_false hpath, hgz, ctExcluded_eq_false hct,
    tooBig_eq_false hsize, hdec]

theorem rewriteHeaders_ce (h : Header) (n : Nat) :
    rewriteHeaders h n "Content-Encoding" = [] := by
  simp [rewriteHeaders, hSet, hDel]

theorem rewriteHeaders_cl (h : Header) (n : Nat) :
    rewriteHeaders h n "Content-Length" = [toString n] := by
  simp [rewriteHeaders, hSet]

theorem rewriteHeaders_other (h : Header) (n : Nat) (k : String)
    (hce : k ≠ "Content-Encoding") (hcl : k ≠ "Content-Length") :
    rewriteHeaders h n k = h k := by
  simp [rewriteHeaders, hSet, hDel, hce, hcl]

theorem isEmpty_eq_false_of_ne_nil {α : Type} {l : List α} (h : l ≠ []) :
    l.isEmpty = false := by
  cases l with
  | nil => exact absurd rfl h
  | cons a t => rfl

/-! ## Concrete fixtures for the witnesses -/

/-- A captured header map with a mixed-case gzip encoding, a text content
type, and one unrelated header. -/
def demoHeaders : Header := fun k =>
  if k = "Content-Encoding" then ["GZip"]
  else if k = "Content-Type" then ["text/plain"]
  else if k = "Server" then ["demo"]
  else []

/-- A captured header map with no `Content-Encoding` at all. -/
def demoPlainHeaders : Header := fun k =>
  if k = "Content-Type" then ["text/html"] else []

/-- A gzip-encoded JSON response's header map. -/
def demoJsonHeaders : Header := fun k =>
  if k = "Content-Encoding" then ["gzip"]
  else if k = "Content-Type" then ["application/json"]
  else []

/-! ## Claims -/

/-- C1: on the buffered branch, when the body decodes (as the output of a
standard gzip encoder on plaintext `P` does) and the path, content-type and
size gates all pass, the flushed response carries body exactly `P`, no
`Content-Encoding` header, and `Content-Length` equal to the decimal string
of `P`'s length (`handler.go:347-369`). -/
theorem claim1_roundTrip (r : ResponseUngzip)
    (gzipDecode : Bytes → Except String Bytes) (reqPath : String)
    (resp : Response) (P : Bytes)
    (hpath : r.Paths = [] ∨ (r.Paths.any fun p => goStartsWith reqPath p) = true)
    (hgz : isGzipped resp.headers = true)
    (hct : r.ContentTypes = []
      ∨ (r.ContentTypes.any fun ct => goStartsWith (hGet resp.headers "Content-Type") ct) = true)
    (hsize : (resp.body.length : Int) ≤ r.MaxSize)
    (hdec : gzipDecode resp.body = Except.ok P) :
    ∃ out, ServeHTTP r gzipDecode reqPath (Except.ok resp) = Outcome.flushed out
      ∧ out.body = P
      ∧ out.headers "Content-Encoding" = []
      ∧ out.headers "Content-Length" = [toString P.length] := by
  exact ⟨⟨resp.status, rewriteHeaders resp.headers P.length, P⟩,
    serveHTTP_decode_ok hpath hgz hct hsize hdec, rfl,
    rewriteHeaders_ce resp.headers P.length, rewriteHeaders_cl resp.headers P.length⟩

theorem claim1_roundTrip_witness :
    ∃ out, ServeHTTP ⟨["/api"], ["text/"], 1000⟩
        (fun b => if b = [31, 139, 8] then Except.ok [104, 105] else Except.error "gzip: invalid header")
        "/api/data"
        (Except.ok ⟨200, demoHeaders, [31, 139, 8]⟩) = Outcome.flushed out
      ∧ out.body = [104, 105]
      ∧ out.headers "Content-Encoding" = []
      ∧ out.headers "Content-Length" = ["2"] := by
  obtain ⟨out, h1, h2, h3, h4⟩ :=
    claim1_roundTrip ⟨["/api"], ["text/"], 1000⟩
      (fun b => if b = [31, 139, 8] then Except.ok [104, 105] else Except.error "gzip: invalid header")
      "/api/data" ⟨200, demoHeaders, [31, 139, 8]⟩ [104, 105]
      (Or.inr (by decide)) (by decide) (Or.inr (by decide)) (by decide) rfl
  exact ⟨out, h1, h2, h3, by rw [h4]; rfl⟩

/-- C2 (divergence from the spec): when the buffered branch's gates all pass
but the decode step fails — bad gzip header or corrupt/truncated data — this
revision's `ServeHTTP` returns the decode error to its caller
(`handler.go:348-357`, `return err`) and flushes nothing, instead of the
fallback flush of the original buffered response that the spec requires. -/
theorem claim2_corruptReturnsError (r : ResponseUngzip)
    (gzipDecode : Bytes → Except String Bytes) (reqPath : String)
    (resp : Response) (e : String)
    (hpath : r.Paths = [] ∨ (r.Paths.any fun p => goStartsWith reqPath p) = true)
    (hgz : isGzipped resp.headers = true)
    (hct : r.ContentTypes = []
      ∨ (r.ContentTypes.any fun ct => goStartsWith (hGet resp.headers "Content-Type") ct) = true)
    (hsize : (resp.body.length : Int) ≤ r.MaxSize)
    (hdec : gzipDecode resp.body = Except.error e) :
    ServeHTTP r gzipDecode reqPath (Except.ok resp) = Outcome.errored e
    ∧ ∀ out, ServeHTTP r gzipDecode reqPath (Except.ok resp) ≠ Outcome.flushed out := by
  have h : ServeHTTP r gzipDecode reqPath (Except.ok resp) = Outcome.errored e := by
    simp [ServeHTTP, pathExcluded_eq_false hpath, hgz, ctExcluded_eq_false hct,
      tooBig_eq_false hsize, hdec]
  refine ⟨h, fun out hco => ?_⟩
  rw [h] at hco
  exact Outcome.noConfusion hco

theorem claim2_corruptReturnsError_witness :
    ServeHTTP ⟨[], [], 10485760⟩ (fun _ => Except.error "gzip: invalid header") "/"
        (Except.ok ⟨200, demoHeaders, [110, 111, 116]⟩)
      = Outcome.errored "gzip: invalid header"
    ∧ ServeHTTP ⟨[], [], 10485760⟩ (fun _ => Except.error "gzip: invalid header") "/"
        (Except.ok ⟨200, demoHeaders, [110, 111, 116]⟩)
      ≠ Outcome.flushed ⟨200, demoHeaders, [110, 111, 116]⟩ := by
  obtain ⟨h1, h2⟩ :=
    claim2_corruptReturnsError ⟨[], [], 10485760⟩ (fun _ => Except.error "gzip: invalid header")
      "/" ⟨200, demoHeaders, [110, 111, 116]⟩ "gzip: invalid header"
      (Or.inl rfl) (by decide) (Or.inl rfl) (by decide) rfl
  exact ⟨h1, h2 _⟩

/-- C3: if the downstream stage invoked with the buffering recorder fails,
`ServeHTTP` returns that same error and nothing is flushed to the real sink
(`handler.go:317-320`). -/
theorem claim3_downstreamError (r : ResponseUngzip)
    (gzipDecode : Bytes → Except String Bytes) (reqPath : String) (e : String)
    (hpath : r.Paths = [] ∨ (r.Paths.any fun p => goStartsWith reqPath p) = true) :
    ServeHTTP r gzipDecode reqPath (Except.error e) = Outcome.errored e := by
  simp [ServeHTTP, pathExcluded_eq_false hpath]

theorem claim3_downstreamError_witness :
    ServeHTTP ⟨["/api"], [], 1000⟩ (fun _ => Except.ok []) "/api/x" (Except.error "boom")
      = Outcome.errored "boom" :=
  claim3_downstreamError ⟨["/api"], [], 1000⟩ (fun _ => Except.ok []) "/api/x" "boom"
    (Or.inr (by decide))

/-- C4: with a non-empty `Paths` list and a request path matching no
configured string, the downstream stage is invoked directly on the real sink
and its result is returned unchanged (`handler.go:302-313`). -/
theorem claim4_pathMismatch (r : ResponseUngzip)
    (gzipDecode : Bytes → Except String Bytes) (reqPath : String)
    (next : Except String Response)
    (hne : r.Paths ≠ [])
    (hnm : (r.Paths.any fun p => goStartsWith reqPath p) = false) :
    ServeHTTP r gzipDecode reqPath next = Outcome.passDirect next := by
  have hp : pathExcluded r reqPath = true := by
    simp [pathExcluded, hnm, isEmpty_eq_false_of_ne_nil hne]
  simp [ServeHTTP, hp]

theorem claim4_pathMismatch_witness :
    ServeHTTP ⟨["/api"], [], 1000⟩ (fun _ => Except.ok []) "/other"
        (Except.ok ⟨200, demoHeaders, [31, 139, 8]⟩)
      = Outcome.passDirect (Except.ok ⟨200, demoHeaders, [31, 139, 8]⟩) :=
  claim4_pathMismatch ⟨["/api"], [], 1000⟩ (fun _ => Except.ok []) "/other"
    (Except.ok ⟨200, demoHeaders, [31, 139, 8]⟩) (by decide) (by decide)

/-- C5: a buffered response whose `Content-Encoding` value does not contain
`"gzip"` case-insensitively is flushed verbatim — status, headers and body
untouched (`handler.go:322-325`, `handler.go:372-374`). -/
theorem claim5_notGzipped (r : ResponseUngzip)
    (gzipDecode : Bytes → Except String Bytes) (reqPath : String) (resp : Response)
    (hpath : r.Paths = [] ∨ (r.Paths.any fun p => goStartsWith reqPath p) = true)
    (hgz : isGzipped resp.headers = false) :
    ServeHTTP r gzipDecode reqPath (Except.ok resp) = Outcome.flushed resp := by
  simp [ServeHTTP, pathExcluded_eq_false hpath, hgz]

theorem claim5_notGzipped_witness :
    ServeHTTP ⟨[], [], 1000⟩ (fun _ => Except.ok []) "/"
        (Except.ok ⟨200, demoPlainHeaders, [1, 2, 3]⟩)
      = Outcome.flushed ⟨200, demoPlainHeaders, [1, 2, 3]⟩ :=
  claim5_notGzipped ⟨[], [], 1000⟩ (fun _ => Except.ok []) "/"
    ⟨200, demoPlainHeaders, [1, 2, 3]⟩ (Or.inl rfl) (by decide)

/-- C6: with a non-empty `ContentTypes` list, a gzip-encoded buffered
response whose `Content-Type` starts with no configured string is flushed
unmodified, whatever the body decodes to (`handler.go:328-340`). -/
theorem claim6_ctMismatch (r : ResponseUngzip)
    (gzipDecode : Bytes → Except String Bytes) (reqPath : String) (resp : Response)
    (hpath : r.Paths = [] ∨ (r.Paths.any fun p => goStartsWith reqPath p) = true)
    (hgz : isGzipped resp.headers = true)
    (hne : r.ContentTypes ≠ [])
    (hnm : (r.ContentTypes.any fun ct => goStartsWith (hGet resp.headers "Content-Type") ct) = false) :
    ServeHTTP r gzipDecode reqPath (Except.ok resp) = Outcome.flushed resp := by
  have hc : ctExcluded r resp.headers = true := by
    simp [ctExcluded, hnm, isEmpty_eq_false_of_ne_nil hne]
  simp [ServeHTTP, pathExcluded_eq_false hpath, hgz, hc]

theorem claim6_ctMismatch_witness :
    ServeHTTP ⟨[], ["text/"], 1000⟩ (fun _ => Except.ok [104]) "/"
        (Except.ok ⟨200, demoJsonHeaders, [31, 139, 8]⟩)
      = Outcome.flushed ⟨200, demoJsonHeaders, [31, 139, 8]⟩ :=
  claim6_ctMismatch ⟨[], ["text/"], 1000⟩ (fun _ => Except.ok [104]) "/"
    ⟨200, demoJsonHeaders, [31, 139, 8]⟩ (Or.inl rfl) (by decide) (by decide) (by decide)

/-- C7: a gzip-encoded buffered response whose body length exceeds `MaxSize`
is flushed unmodified, whatever the body decodes to and however the
content-type gate would have decided (`handler.go:342-345`). -/
theorem claim7_oversize (r : ResponseUngzip)
    (gzipDecode : Bytes → Except String Bytes) (reqPath : String) (resp : Response)
    (hpath : r.Paths = [] ∨ (r.Paths.any fun p => goStartsWith reqPath p) = true)
    (hgz : isGzipped resp.headers = true)
    (hbig : (resp.body.length : Int) > r.MaxSize) :
    ServeHTTP r gzipDecode reqPath (Except.ok resp) = Outcome.flushed resp := by
  have hb : tooBig r resp.body = true := by
    simp [tooBig]
    exact hbig
  cases hc : ctExcluded r resp.headers with
  | true => simp [ServeHTTP, pathExcluded_eq_false hpath, hgz, hc]
  | false => simp [ServeHTTP, pathExcluded_eq_false hpath, hgz, hc, hb]

theorem claim7_oversize_witness :
    ServeHTTP ⟨[], [], 2⟩ (fun _ => Except.ok [104]) "/"
        (Except.ok ⟨200, demoHeaders, [31, 139, 8]⟩)
      = Outcome.flushed ⟨200, demoHeaders, [31, 139, 8]⟩ :=
  claim7_oversize ⟨[], [], 2⟩ (fun _ => Except.ok [104]) "/"
    ⟨200, demoHeaders, [31, 139, 8]⟩ (Or.inl rfl) (by decide) (by decide)

/-- C8: `Validate` errors exactly on a negative `MaxSize`
(`handler.go:292-297`), the finalization step of `UnmarshalCaddyfile` turns
a zero `MaxSize` into the default `10485760` and keeps every non-zero value
(`handler.go:79-82`), so a validated configuration's `MaxSize` is never
negative. -/
theorem claim8_maxSizeInvariant (r : ResponseUngzip) :
    ((∃ e, Validate r = Except.error e) ↔ r.MaxSize < 0)
    ∧ applyDefaultMaxSize 0 = 10485760
    ∧ (r.MaxSize ≠ 0 → applyDefaultMaxSize r.MaxSize = r.MaxSize)
    ∧ (Validate r = Except.ok () → 0 ≤ r.MaxSize) := by
  refine ⟨⟨?_, ?_⟩, by decide, ?_, ?_⟩
  · rintro ⟨e, he⟩
    by_contra hlt
    simp [Validate, hlt] at he
  · intro h
    exact ⟨"max_size cannot be negative", by simp [Validate, h]⟩
  · intro h
    simp [applyDefaultMaxSize, h]
  · intro h
    by_contra hneg
    simp [Validate, lt_of_not_ge hneg] at h

theorem claim8_maxSizeInvariant_witness :
    (∃ e, Validate ⟨[], [], -1⟩ = Except.error e)
    ∧ applyDefaultMaxSize 0 = 10485760
    ∧ applyDefaultMaxSize (-1) = -1 :=
  ⟨(claim8_maxSizeInvariant ⟨[], [], -1⟩).1.mpr (by decide),
   (claim8_maxSizeInvariant ⟨[], [], 0⟩).2.1,
   (claim8_maxSizeInvariant ⟨[], [], -1⟩).2.2.1 (by decide)⟩

/-- C9: on a successful decode, the rewrite touches only `Content-Encoding`
(deleted) and `Content-Length` (overwritten); the status code and every
other header reach the real sink exactly as the downstream stage produced
them (`handler.go:359-369`, `handler.go:170-173`). -/
theorem claim9_headerFrame (r : ResponseUngzip)
    (gzipDecode : Bytes → Except String Bytes) (reqPath : String)
    (resp : Response) (P : Bytes)
    (hpath : r.Paths = [] ∨ (r.Paths.any fun p => goStartsWith reqPath p) = true)
    (hgz : isGzipped resp.headers = true)
    (hct : r.ContentTypes = []
      ∨ (r.ContentTypes.any fun ct => goStartsWith (hGet resp.headers "Content-Type") ct) = true)
    (hsize : (resp.body.length : Int) ≤ r.MaxSize)
    (hdec : gzipDecode resp.body = Except.ok P) :
    ∃ out, ServeHTTP r gzipDecode reqPath (Except.ok resp) = Outcome.flushed out
      ∧ out.status = resp.status
      ∧ (∀ k, k ≠ "Content-Encoding" → k ≠ "Content-Length" → out.headers k = resp.headers k)
      ∧ out.headers "Content-Encoding" = []
      ∧ out.headers "Content-Length" = [toString P.length] := by
  exact ⟨⟨resp.status, rewriteHeaders resp.headers P.length, P⟩,
    serveHTTP_decode_ok hpath hgz hct hsize hdec, rfl,
    fun k hce hcl => rewriteHeaders_other resp.headers P.length k hce hcl,
    rewriteHeaders_ce resp.headers P.length, rewriteHeaders_cl resp.headers P.length⟩

theorem claim9_headerFrame_witness :
    ∃ out, ServeHTTP ⟨[], [], 100⟩ (fun _ => Except.ok [104]) "/x"
        (Except.ok ⟨404, demoHeaders, [31, 139]⟩) = Outcome.flushed out
      ∧ out.status = 404
      ∧ out.headers "Server" = ["demo"]
      ∧ out.headers "Content-Type" = ["text/plain"]
      ∧ out.headers "Content-Encoding" = []
      ∧ out.headers "Content-Length" = ["1"] := by
  obtain ⟨out, h1, h2, h3, h4, h5⟩ :=
    claim9_headerFrame ⟨[], [], 100⟩ (fun _ => Except.ok [104]) "/x"
      ⟨404, demoHeaders, [31, 139]⟩ [104]
      (Or.inl rfl) (by decide) (Or.inl rfl) (by decide) rfl
  refine ⟨out, h1, h2, ?_, ?_, h4, by rw [h5]; rfl⟩
  · rw [h3 "Server" (by decide) (by decide)]
    rfl
  · rw [h3 "Content-Type" (by decide) (by decide)]
    rfl

/-- C10: `UnmarshalCaddyfile` accepts any `max_size` argument that
`strconv.ParseInt(_, 10, 64)` parses, negative values included; the default
substitution fires only on an exact zero, so a negative value survives
parsing and is rejected only later by `Validate` (`handler.go:63-71`,
`handler.go:79-84`). -/
theorem claim10_negativeMaxSize (s : String) (n : Int)
    (hp : parseInt64 s = some n) (hn : n < 0) :
    unmarshalMaxSize s = Except.ok n
    ∧ applyDefaultMaxSize n = n
    ∧ Validate ⟨[], [], n⟩ = Except.error "max_size cannot be negative" := by
  refine ⟨by simp [unmarshalMaxSize, hp], ?_, by simp [Validate, hn]⟩
  have hne : n ≠ 0 := by omega
  simp [applyDefaultMaxSize, hne]

theorem claim10_negativeMaxSize_witness :
    unmarshalMaxSize "-5" = Except.ok (-5)
    ∧ applyDefaultMaxSize (-5) = -5
    ∧ Validate ⟨[], [], -5⟩ = Except.error "max_size cannot be negative" :=
  claim10_negativeMaxSize "-5" (-5) (by decide) (by decide)

end CaddyUngzip
